import Mathlib

/-
Verification of the MLB-Custom-Ball-in-Play-Projection repository.

The code parts are shallowly embedded over the rationals:
  * src/visualization.py : calculate_expected_home_runs,
    calculate_xba_from_ev_la, calculate_expected_stats_for_stadium
  * src/comparison.py    : calculate_stadium_match_score
  * src/interactive.py   : the park-factor label of display_stadiums
Pandas DataFrames are embedded as a list of rows plus one boolean per
optional column recording whether that column is present in the frame
(column presence is a frame-level fact in pandas); a missing value inside
a present column is an `Option` that `fillna` resolves.  The frames
modelled here carry the fields of the specification's BattedBallEvent
data model (launch_speed, launch_angle, hit_distance_sc, spray_angle,
outcome label, measured xBA/xSLG proxies); the raw hc_x/hc_y pixel
columns, which the spec assigns to the coordinate-to-angle transform of
the presentation layer, are outside this model.

The specification additionally describes an atmosphere model, a
drag-and-gravity trajectory integrator and a wall-geometry resolver with
wall heights.  No such code exists anywhere under src/, so those
components are modelled from the spec over the reals, each marked
`Modelled from the spec:` in its doc comment.
-/

namespace MLBProj

/-- numpy `np.clip(x, lo, hi)`, documented as `minimum(maximum(x, lo), hi)`. -/
def clip (x lo hi : ℚ) : ℚ := min (max x lo) hi

/-- One row of a balls-in-play frame.  `launch_speed` / `launch_angle` are the
required fields of the spec's BattedBallEvent (events missing them are excluded
upstream); `hit_distance_sc` may be NaN inside a present column, hence `Option`;
`xba_m` / `xslg_m` are the measured `estimated_ba_using_speedangle` /
`estimated_slg_using_speedangle` values; `events` is the outcome label. -/
structure BipRow where
  launch_speed : ℚ
  launch_angle : ℚ
  hit_distance_sc : Option ℚ
  spray_angle : ℚ
  xba_m : Option ℚ
  xslg_m : Option ℚ
  events : String
deriving DecidableEq, Repr

/-- A balls-in-play frame: rows plus per-column presence flags
(`'hit_distance_sc' in bip_data.columns` and so on).  `hasXbaCol` merges the
`estimated_ba_using_speedangle` / `xba` column aliases that the source checks
in sequence, `hasXslgCol` is `estimated_slg_using_speedangle`. -/
structure BipData where
  rows : List BipRow
  hasHitDistCol : Bool
  hasSprayCol : Bool
  hasXbaCol : Bool
  hasXslgCol : Bool
  hasEventsCol : Bool
deriving DecidableEq, Repr

/-- A stadium record of src/stadiums.py STADIUM_DATA, restricted to the fields
the embedded functions read.  The consuming code reads every dimension with
`.get(key, default)`, hence `Option`; `altitude` is present on every entry. -/
structure Stadium where
  left_field : Option ℚ
  left_center : Option ℚ
  center_field : Option ℚ
  right_center : Option ℚ
  right_field : Option ℚ
  park_factor : Option ℚ
  altitude : ℚ
deriving DecidableEq, Repr

/-- Exact value of `np.degrees(np.arctan2(x, y))` at
`x = d * sin(radians(s))`, `y = d * cos(radians(s))`: the angle `s` wrapped
into the `arctan2` range `(-180, 180]` when `d > 0`, the angle `0` when
`d = 0` (arctan2(0,0) = 0), and `s + 180` wrapped when `d < 0`.
`wrapAngle s = s - 360 * ceil((s - 180) / 360)` is the unique representative
of `s` modulo 360 inside `(-180, 180]`. -/
def wrapAngle (s : ℚ) : ℚ := s - 360 * (⌈(s - 180) / 360⌉ : ℤ)

/-- Direction angle of a hit, src/visualization.py lines 467-478: when the
spray path is taken, `x = d*sin(radians(s))`, `y = d*cos(radians(s))` and
`angles = degrees(arctan2(x, y))`; when only distances are known the code sets
`x = 0, y = d`, which is the `s = 0` case of the same formula. -/
def dirAngle (d s : ℚ) : ℚ :=
  if 0 < d then wrapAngle s else if d = 0 then 0 else wrapAngle (s + 180)

/-- Fence-distance interpolation of src/visualization.py lines 485-501,
verbatim: the branch thresholds are ±30, the left/right branches renormalise
over `[−45,−30]` / `[30,45]`, and the two central branches use the factors
`(1 + t)` exactly as written in the source. -/
def fence_distance_for_angle (lf cf rf angle : ℚ) : ℚ :=
  if angle ≤ -30 then lf + (cf - lf) * (1 - (angle + 45) / 15)
  else if 30 ≤ angle then cf + (rf - cf) * ((angle - 30) / 15)
  else if angle < 0 then lf + (cf - lf) * (1 + (angle + 30) / 30)
  else rf + (cf - rf) * (1 + (30 - angle) / 30)

/-- Per-row hit distance, src/visualization.py lines 439-448: the
`hit_distance_sc` column with `fillna(0)` when present, otherwise the
`clip(ev * 2.5 + (12 - |la - 10|) * 5, 50, 450)` estimate from the launch
columns (always present in this model). -/
def rowHitDistance (b : BipData) (r : BipRow) : ℚ :=
  if b.hasHitDistCol then r.hit_distance_sc.getD 0
  else clip (r.launch_speed * 2.5 + (12 - |r.launch_angle - 10|) * 5) 50 450

/-- Per-row direction angle, src/visualization.py lines 467-478: the spray
path when the `spray_angle` column exists, else `x = 0, y = hit_distances`. -/
def rowAngle (b : BipData) (r : BipRow) : ℚ :=
  dirAngle (rowHitDistance b r) (if b.hasSprayCol then r.spray_angle else 0)

/-- src/visualization.py lines 419-506 `calculate_expected_home_runs`:
counts the events whose hit distance reaches the interpolated fence distance
at their direction.  Altitude, park factor and any wall height play no part. -/
def calculate_expected_home_runs (b : BipData) (s : Stadium) : ℕ :=
  if b.rows.length = 0 then 0
  else
    let lf := s.left_field.getD 330
    let cf := s.center_field.getD 400
    let rf := s.right_field.getD 330
    b.rows.countP fun r =>
      decide (fence_distance_for_angle lf cf rf (rowAngle b r) ≤ rowHitDistance b r)

/-- src/visualization.py lines 335-364 `calculate_xba_from_ev_la`. -/
def calculate_xba_from_ev_la (ev la : ℚ) : ℚ :=
  let ev_factor := clip ((ev - 70) / 30) 0 1
  let la_factor := clip (1 - |la - 10| / 30) 0 1
  0.1 + 0.4 * ev_factor * la_factor

/-- The `xba_values` local of src/visualization.py lines 526-534: the measured
column with `fillna(0.3)` if present, else the launch-derived estimate. -/
def xbaValues (b : BipData) : List ℚ :=
  if b.hasXbaCol then b.rows.map fun r => r.xba_m.getD 0.3
  else b.rows.map fun r => calculate_xba_from_ev_la r.launch_speed r.launch_angle

/-- The `xslg_values` local of src/visualization.py lines 537-541: the measured
column with `fillna(0.4)` if present, else `xba_values * 1.5`. -/
def xslgValues (b : BipData) : List ℚ :=
  if b.hasXslgCol then b.rows.map fun r => r.xslg_m.getD 0.4
  else (xbaValues b).map fun q => q * 1.5

/-- Arithmetic mean of a list of rationals (`pd.Series.mean` on a non-empty
series of finite values). -/
def mean (l : List ℚ) : ℚ := l.sum / (l.length : ℚ)

/-- The dictionary built at src/visualization.py lines 556-568. -/
structure ExpectedStats where
  expected_ba : ℚ
  expected_slg : ℚ
  expected_ops : ℚ
  expected_hr_count : ℕ
  expected_hr_rate : ℚ
  actual_hr_count : ℕ
  actual_hr_rate : ℚ
  total_bip : ℕ
  park_factor : ℚ
  park_adjusted_ba : ℚ
  park_adjusted_slg : ℚ
deriving DecidableEq, Repr

/-- src/visualization.py lines 509-570 `calculate_expected_stats_for_stadium`.
An empty frame returns the empty dict `{}` (modelled `none`); otherwise every
key is populated (modelled `some` of a full record). -/
def calculate_expected_stats_for_stadium (b : BipData) (s : Stadium) :
    Option ExpectedStats :=
  if b.rows.length = 0 then none
  else
    let park_factor := s.park_factor.getD 1
    let xba := xbaValues b
    let xslg := xslgValues b
    let hrCount := calculate_expected_home_runs b s
    let actualCount :=
      if b.hasEventsCol then b.rows.countP (fun r => r.events == "home_run") else 0
    some
      { expected_ba := mean xba
        expected_slg := mean xslg
        expected_ops := mean xba + mean xslg
        expected_hr_count := hrCount
        expected_hr_rate := (hrCount : ℚ) / (b.rows.length : ℚ)
        actual_hr_count := actualCount
        actual_hr_rate :=
          if b.hasEventsCol then (actualCount : ℚ) / (b.rows.length : ℚ) else 0
        total_bip := b.rows.length
        park_factor := park_factor
        park_adjusted_ba := mean xba * (1 + (park_factor - 1) * 0.1)
        park_adjusted_slg := mean xslg * park_factor }

/-- The per-season hitter summary consumed by src/comparison.py; every field is
read with `.get(key, default)`, hence `Option`. -/
structure HitterStats where
  avg_exit_velocity : Option ℚ
  hard_hit_rate : Option ℚ
  avg_launch_angle : Option ℚ
  avg_distance : Option ℚ
  pull_rate : Option ℚ
  oppo_rate : Option ℚ
  home_run_rate : Option ℚ
deriving DecidableEq, Repr

/-- The `scores` dictionary of src/comparison.py lines 66-74; its seven keys
are the seven fields.  `expected_home_runs` holds Python `None` when
`home_run_rate` is absent or zero (line 72), hence `Option`. -/
structure MatchScores where
  exit_velocity_score : ℚ
  hard_hit_score : ℚ
  distance_score : ℚ
  park_factor_boost : ℚ
  overall_match_score : ℚ
  expected_home_runs : Option ℚ
  stadium_advantage : String
deriving DecidableEq, Repr

/-- The park-factor label shared by src/comparison.py line 73 and
src/interactive.py lines 49-50:
`'Hitter-friendly' if pf > 1.05 else 'Pitcher-friendly' if pf < 0.95 else
'Neutral'`. -/
def parkType (pf : ℚ) : String :=
  if 1.05 < pf then "Hitter-friendly"
  else if pf < 0.95 then "Pitcher-friendly" else "Neutral"

/-- src/comparison.py lines 13-76 `calculate_stadium_match_score`.  Python
`None` inputs and output are `Option`; the float truthiness tests
`if avg_distance:` and `if hard_hit_rate` / `if hitter_stats.get('home_run_rate')`
are nonzero (respectively present-and-nonzero) tests on rationals. -/
def calculate_stadium_match_score (oh : Option HitterStats) (os : Option Stadium) :
    Option MatchScores :=
  match oh, os with
  | none, _ => none
  | _, none => none
  | some h, some s =>
    let avg_ev := h.avg_exit_velocity.getD 0
    let hard_hit_rate := h.hard_hit_rate.getD 0
    let park_factor := s.park_factor.getD 1
    let ev_score := avg_ev * park_factor
    let lf := s.left_field.getD 330
    let cf := s.center_field.getD 400
    let rf := s.right_field.getD 330
    let avg_distance := h.avg_distance.getD 0
    let distance_score :=
      if avg_distance ≠ 0 then
        max 0 ((avg_distance - min lf (min cf rf)) / 50) * park_factor
      else if hard_hit_rate ≠ 0 then hard_hit_rate * park_factor else 0
    let overall_score :=
      ev_score * 0.3 + hard_hit_rate * park_factor * 100 * 0.3 +
        distance_score * 0.2 + park_factor * 20 * 0.2
    some
      { exit_velocity_score := ev_score
        hard_hit_score := hard_hit_rate * park_factor * 100
        distance_score := distance_score
        park_factor_boost := park_factor
        overall_match_score := overall_score
        expected_home_runs :=
          if h.home_run_rate.getD 0 ≠ 0 then
            some (h.home_run_rate.getD 0 * park_factor * 100)
          else none
        stadium_advantage := parkType park_factor }

/-- Modelled from the spec: the §4.5 expected-batting-average heuristic in the
spec's own words, `xba = 0.1 + 0.4 * clip((ev − 70)/30, 0, 1) *
clip(1 − |la − 10|/30, 0, 1)`, written independently of the source for the
refinement comparison of claim C6. -/
def spec_xba (ev la : ℚ) : ℚ :=
  0.1 + 0.4 * (min (max ((ev - 70) / 30) 0) 1) * (min (max (1 - |la - 10| / 30) 0) 1)

/-- Modelled from the spec: §4.1 AtmosphereModel, absent from src/.
`density(altitude_ft) = ρ0 * exp(−altitude_ft / H)` with `ρ0 = 0.075` and
`H = 30000` ft, a total function on the reals. -/
noncomputable def density (altitude : ℝ) : ℝ :=
  0.075 * Real.exp (-altitude / 30000)

/-- Gravitational constant of §4.2, ft/s². -/
def gravity : ℝ := 32.17

/-- Drag coefficient `Cd` of §4.2. -/
def dragCd : ℝ := 0.3

/-- Ball cross-sectional area of §4.2, ft². -/
def ballArea : ℝ := 0.0458

/-- Ball mass of §4.2 in slugs: weight 0.3125 lb over g. -/
noncomputable def mSlug : ℝ := 0.3125 / 32.17

/-- Integration step of §4.2, seconds. -/
def dtStep : ℝ := 0.01

/-- mph to ft/s conversion factor of §4.2. -/
def mphToFps : ℝ := 1.46667

/-- State of the §4.2 integrator: horizontal position, height, and the two
velocity components, all in ft and ft/s. -/
structure TrajState where
  x : ℝ
  y : ℝ
  vx : ℝ
  vy : ℝ

/-- Modelled from the spec: one §4.2 integration step, absent from src/.
Speed magnitude, quadratic drag `F_d = 0.5 ρ v² Cd A`, accelerations
`ax = −F_d (vx/v)/m`, `ay = −g − F_d (vy/v)/m`, velocity updated before
position; the §4.2 zero-velocity guard treats `v = 0` as zero drag. -/
noncomputable def trajStep (airDensity : ℝ) (s : TrajState) : TrajState :=
  let v := Real.sqrt (s.vx ^ 2 + s.vy ^ 2)
  let fd := 0.5 * airDensity * v ^ 2 * dragCd * ballArea
  let ax := if v = 0 then 0 else -(fd * (s.vx / v)) / mSlug
  let ay := if v = 0 then -gravity else -gravity - (fd * (s.vy / v)) / mSlug
  let vx' := s.vx + dtStep * ax
  let vy' := s.vy + dtStep * ay
  { x := s.x + dtStep * vx', y := s.y + dtStep * vy', vx := vx', vy := vy' }

open scoped Classical in
/-- Modelled from the spec: the §4.2 integration loop, absent from src/.
Steps until `x ≥ target_distance` or `y ≤ 0`, returning the state there; the
spec's while loop is given a step budget (fuel) as the recursion measure. -/
noncomputable def trajRun (target airDensity : ℝ) : ℕ → TrajState → TrajState
  | 0, s => s
  | n + 1, s =>
    if target ≤ s.x ∨ s.y ≤ 0 then s
    else trajRun target airDensity n (trajStep airDensity s)

/-- Step budget standing in for the unbounded §4.2 while loop: 100000 steps of
0.01 s cover 1000 s of flight, far beyond any batted ball. -/
def integratorFuel : ℕ := 100000

/-- Modelled from the spec: the §4.2 initial state, `x = 0`, `y = 3` ft, the
launch speed converted to ft/s and decomposed by the launch angle. -/
noncomputable def initState (speedMph angleDeg : ℝ) : TrajState :=
  { x := 0
    y := 3
    vx := speedMph * mphToFps * Real.cos (angleDeg * Real.pi / 180)
    vy := speedMph * mphToFps * Real.sin (angleDeg * Real.pi / 180) }

/-- Modelled from the spec: §4.2 `height_at_distance`, absent from src/ — the
ball height when the integration loop stops. -/
noncomputable def heightAtDistance (speedMph angleDeg target airDensity : ℝ) : ℝ :=
  (trajRun target airDensity integratorFuel (initState speedMph angleDeg)).y

/-- Modelled from the spec: the §4.3 WallGeometryResolver in its discrete
zoning strategy, absent from src/ — direction < −15° gives the left-field
anchor, > +15° the right-field anchor, otherwise the center-field anchor —
with the §7 default wall height of 8 ft and §7 default distances. -/
def fence_for_direction (s : Stadium) (direction : ℚ) : ℚ × ℚ :=
  if direction < -15 then (s.left_field.getD 330, 8)
  else if 15 < direction then (s.right_field.getD 330, 8)
  else (s.center_field.getD 400, 8)

lemma sum_map_mul (l : List ℚ) (c : ℚ) : (l.map fun q => q * c).sum = l.sum * c := by
  induction l with
  | nil => simp
  | cons a t ih => simp [ih, add_mul]

lemma mean_map_mul (l : List ℚ) (c : ℚ) : mean (l.map fun q => q * c) = mean l * c := by
  rw [mean, mean, List.length_map, sum_map_mul, mul_div_right_comm]

lemma trajStep_y (ρ : ℝ) (s : TrajState) :
    (trajStep ρ s).y = s.y + dtStep * (trajStep ρ s).vy := rfl

/-- One §4.2 Euler step of a straight-down trajectory at sea-level density
keeps the lateral velocity zero, keeps the vertical velocity inside
`[-25, 0]` ft/s, and does not raise the ball. -/
lemma trajStep_inv (s : TrajState) (hvx : s.vx = 0) (hlo : -25 ≤ s.vy)
    (hhi : s.vy ≤ 0) :
    (trajStep 0.075 s).vx = 0 ∧ -25 ≤ (trajStep 0.075 s).vy ∧
      (trajStep 0.075 s).vy ≤ 0 ∧ (trajStep 0.075 s).y ≤ s.y := by
  have hsq : Real.sqrt (s.vx ^ 2 + s.vy ^ 2) = -s.vy := by
    rw [hvx]
    simpa [Real.sqrt_sq_eq_abs] using abs_of_nonpos hhi
  by_cases hvy : s.vy = 0
  · have h0 : Real.sqrt (s.vx ^ 2 + s.vy ^ 2) = 0 := by rw [hsq, hvy, neg_zero]
    have hstep : trajStep 0.075 s =
        { x := s.x + dtStep * s.vx, y := s.y + dtStep * (s.vy + dtStep * -gravity),
          vx := s.vx, vy := s.vy + dtStep * -gravity } := by
      simp [trajStep, h0]
    rw [hstep]
    refine ⟨hvx, ?_, ?_, ?_⟩ <;>
      simp only [hvy, dtStep, gravity] <;> norm_num
  · have hvylt : s.vy < 0 := lt_of_le_of_ne hhi hvy
    rw [hvx] at hsq
    have hvneg : -s.vy ≠ 0 := ne_of_gt (by linarith)
    have hdiv : s.vy / -s.vy = -1 := by
      rw [div_neg, div_self hvy]
    have hstep : trajStep 0.075 s =
        { x := s.x,
          y := s.y + dtStep * (s.vy + dtStep * (-32.17 + 0.053041896 * s.vy ^ 2)),
          vx := 0,
          vy := s.vy + dtStep * (-32.17 + 0.053041896 * s.vy ^ 2) } := by
      simp only [trajStep, hvx, hsq, if_neg hvneg, hdiv, neg_sq, dtStep, gravity,
        dragCd, ballArea, mSlug, TrajState.mk.injEq]
      refine ⟨by ring, by ring, by ring, by ring⟩
    rw [hstep]
    refine ⟨rfl, ?_, ?_, ?_⟩
    · show -25 ≤ s.vy + dtStep * (-32.17 + 0.053041896 * s.vy ^ 2)
      rw [dtStep]
      nlinarith [sq_nonneg (s.vy + 25)]
    · show s.vy + dtStep * (-32.17 + 0.053041896 * s.vy ^ 2) ≤ 0
      rw [dtStep]
      nlinarith [mul_nonneg (show (0:ℝ) ≤ -s.vy by linarith)
        (show (0:ℝ) ≤ 1 + 0.00053041896 * s.vy by nlinarith)]
    · show s.y + dtStep * (s.vy + dtStep * (-32.17 + 0.053041896 * s.vy ^ 2)) ≤ s.y
      rw [dtStep]
      nlinarith [mul_nonneg (show (0:ℝ) ≤ -s.vy by linarith)
        (show (0:ℝ) ≤ 1 + 0.00053041896 * s.vy by nlinarith)]

/-- Along any number of §4.2 steps, a trajectory starting with zero lateral
velocity, downward vertical velocity and height at most the 3 ft release
height never gets above 3 ft. -/
lemma trajRun_y_le (target : ℝ) :
    ∀ (n : ℕ) (s : TrajState), s.vx = 0 → -25 ≤ s.vy → s.vy ≤ 0 → s.y ≤ 3 →
      (trajRun target 0.075 n s).y ≤ 3 := by
  intro n
  induction n with
  | zero => intro s _ _ _ hy; simpa [trajRun] using hy
  | succ n ih =>
    intro s hvx hlo hhi hy
    rw [trajRun]
    by_cases hc : target ≤ s.x ∨ s.y ≤ 0
    · rw [if_pos hc]; exact hy
    · rw [if_neg hc]
      obtain ⟨h1, h2, h3, h4⟩ := trajStep_inv s hvx hlo hhi
      exact ih (trajStep 0.075 s) h1 h2 h3 (le_trans h4 hy)

/-- The §4.2 integrator on a dead ball (zero exit velocity, flat angle) aimed
at a 400 ft fence reports a height no greater than 3 ft, hence below any 8 ft
wall. -/
lemma heightAtDistance_dead_ball : heightAtDistance 0 0 400 (density 0) ≤ 8 := by
  have hδ : density 0 = 0.075 := by
    simp [density]
  have hinit : initState 0 0 = { x := 0, y := 3, vx := 0, vy := 0 } := by
    simp [initState]
  rw [heightAtDistance, hδ, hinit]
  have h := trajRun_y_le 400 integratorFuel { x := 0, y := 3, vx := 0, vy := 0 }
    rfl (by norm_num) (by norm_num) (by norm_num)
  linarith

lemma wrapAngle_zero : wrapAngle 0 = 0 := by
  have h : ⌈((0 : ℚ) - 180) / 360⌉ = (0 : ℤ) := by
    rw [Int.ceil_eq_iff]
    norm_num
  rw [wrapAngle, h]
  norm_num

/-- A dead ball: zero exit velocity, flat launch angle, yet a recorded
`hit_distance_sc` of 500 ft, sprayed dead center. -/
def cexRow : BipRow := ⟨0, 0, some 500, 0, none, none, "single"⟩

/-- Singleton frame holding `cexRow`, with the hit-distance column present. -/
def cexBatch : BipData := ⟨[cexRow], true, false, false, false, false⟩

/-- A 330/400/330 sea-level stadium with neutral park factor. -/
def cexStadium : Stadium := ⟨some 330, none, some 400, none, some 330, some 1, 0⟩

/-- C1.  The claim states that `calculate_expected_home_runs` classifies an
event as a home run iff the distance condition AND the wall-clearance
condition `ball_height > wall_height` both hold, distance alone never being
sufficient.  The code contradicts this: for the dead ball `cexRow` (exit
velocity 0, launch angle 0, recorded distance 500 ft) the code counts a home
run from the distance alone, while the spec's §4.2 integrator puts the ball
below 8 ft (indeed it never rises above its 3 ft release height), so the
claimed wall-clearance conjunct is false at this event.  The code never
consults any wall height — `Stadium` carries none — so the claimed
equivalence fails. -/
theorem claim_C1_counterexample :
    calculate_expected_home_runs cexBatch cexStadium = 1 ∧
    fence_for_direction cexStadium 0 = (400, 8) ∧
    (500 : ℚ) ≥ (fence_for_direction cexStadium 0).1 ∧
    heightAtDistance 0 0 400 (density 0) ≤ 8 := by
  refine ⟨?_, ?_, ?_, heightAtDistance_dead_ball⟩
  · norm_num [calculate_expected_home_runs, cexBatch, cexRow, cexStadium,
      rowHitDistance, rowAngle, dirAngle, wrapAngle_zero, fence_distance_for_angle,
      List.countP_cons, List.countP_nil]
  · norm_num [fence_for_direction, cexStadium]
  · norm_num [fence_for_direction, cexStadium]

/-- C1 amended: the classifier of src/visualization.py lines 419-506 counts an
event as a home run iff its recorded hit distance (0 when missing) reaches the
interpolated fence distance at its direction; no ball-height or wall-height
condition exists, so the distance condition alone is sufficient. -/
theorem claim_C1_amended (r : BipRow) (sc xc slc ec : Bool) (s : Stadium) :
    calculate_expected_home_runs ⟨[r], true, sc, xc, slc, ec⟩ s =
      if fence_distance_for_angle (s.left_field.getD 330) (s.center_field.getD 400)
          (s.right_field.getD 330)
          (dirAngle (r.hit_distance_sc.getD 0) (if sc then r.spray_angle else 0)) ≤
          r.hit_distance_sc.getD 0
      then 1 else 0 := by
  simp [calculate_expected_home_runs, rowHitDistance, rowAngle, List.countP_cons]

/-- C2.  The claim states that aggregating an empty batch returns a record
with `total_bip = 0`.  The code returns the empty dict `{}` (modelled `none`):
no `total_bip` field exists at all, so no record with `total_bip = 0` is
returned. -/
theorem claim_C2_counterexample :
    calculate_expected_stats_for_stadium ⟨[], true, true, true, true, true⟩ cexStadium =
      none ∧
    ¬ ∃ r : ExpectedStats,
      calculate_expected_stats_for_stadium ⟨[], true, true, true, true, true⟩ cexStadium =
        some r ∧ r.total_bip = 0 := by
  refine ⟨rfl, ?_⟩
  rintro ⟨r, hr, -⟩
  simp [calculate_expected_stats_for_stadium] at hr

/-- C2 amended: aggregating an empty batch returns the explicitly empty result
`{}` — no populated record, `total_bip` absent rather than 0 — and never
raises (the function is total). -/
theorem claim_C2_amended (c1 c2 c3 c4 c5 : Bool) (s : Stadium) :
    calculate_expected_stats_for_stadium ⟨[], c1, c2, c3, c4, c5⟩ s = none := rfl

/-- C3.  The claim states that for directions beyond ±45° the fence
resolution clamps to the nearest anchor.  The code instead extrapolates its
left-field interpolation line: at direction −60° with a 330/400/330 outfield
it yields 470 ft, not the 330 ft left-field anchor. -/
theorem claim_C3_counterexample :
    fence_distance_for_angle 330 400 330 (-60) = 470 ∧ (470 : ℚ) ≠ 330 := by
  constructor
  · norm_num [fence_distance_for_angle]
  · norm_num

/-- C3 amended: beyond the ±45° anchors the code keeps applying the boundary
interpolation formulas of src/visualization.py lines 485-493, which are linear
in the angle and therefore unbounded — no clamping occurs. -/
theorem claim_C3_amended :
    (∀ lf cf rf angle : ℚ, angle < -45 →
      fence_distance_for_angle lf cf rf angle = lf + (cf - lf) * (1 - (angle + 45) / 15)) ∧
    (∀ lf cf rf angle : ℚ, 45 < angle →
      fence_distance_for_angle lf cf rf angle = cf + (rf - cf) * ((angle - 30) / 15)) ∧
    (∀ M : ℚ, ∃ angle, angle < -45 ∧ fence_distance_for_angle 330 400 330 angle > M) := by
  refine ⟨?_, ?_, ?_⟩
  · intro lf cf rf a ha
    rw [fence_distance_for_angle, if_pos (by linarith)]
  · intro lf cf rf a ha
    rw [fence_distance_for_angle, if_neg (by push_neg; linarith), if_pos (by linarith)]
  · intro M
    have hm : min (-46 : ℚ) ((400 - M) * 3 / 14 - 46) ≤ -46 := min_le_left _ _
    have hm2 : min (-46 : ℚ) ((400 - M) * 3 / 14 - 46) ≤ (400 - M) * 3 / 14 - 46 :=
      min_le_right _ _
    refine ⟨min (-46) ((400 - M) * 3 / 14 - 46), by linarith, ?_⟩
    rw [fence_distance_for_angle, if_pos (by linarith)]
    linarith

/-- Witness for the amended C3 at the concrete direction −50°. -/
theorem claim_C3_witness :
    fence_distance_for_angle 330 400 330 (-50) =
      330 + (400 - 330) * (1 - ((-50) + 45) / 15) :=
  claim_C3_amended.1 330 400 330 (-50) (by norm_num)

/-- The §8 worked example's hitter summary: avg exit velocity 95, hard-hit
rate 0.5, all other fields absent. -/
def exampleHitter : HitterStats := ⟨some 95, some (1/2), none, none, none, none, none⟩

/-- The §8 worked example's stadium: park factor 1.1, everything else absent. -/
def exampleStadium : Stadium := ⟨none, none, none, none, none, some (11/10), 0⟩

/-- C4.  The match scorer on the §8 worked example returns exactly
`ev_score = 104.5`, `hard_hit_score = 55`, `distance_score = 0.55`,
`overall = 52.36` (equality, hence within the claimed 1e-6). -/
theorem claim_C4 :
    calculate_stadium_match_score (some exampleHitter) (some exampleStadium) =
      some ⟨104.5, 55, 0.55, 1.1, 52.36, none, "Hitter-friendly"⟩ := by
  norm_num [calculate_stadium_match_score, exampleHitter, exampleStadium, parkType]

/-- C5.  The park label is "Hitter-friendly" exactly above 1.05,
"Pitcher-friendly" exactly below 0.95, "Neutral" in between (boundaries
included), with the three quoted instances, and the `stadium_advantage` field
of every match score is exactly this label of the stadium's park factor. -/
theorem claim_C5 :
    (∀ pf : ℚ, (1.05 < pf → parkType pf = "Hitter-friendly") ∧
      (pf < 0.95 → parkType pf = "Pitcher-friendly") ∧
      (0.95 ≤ pf → pf ≤ 1.05 → parkType pf = "Neutral")) ∧
    parkType 1.30 = "Hitter-friendly" ∧ parkType 0.88 = "Pitcher-friendly" ∧
    parkType 1 = "Neutral" ∧
    (∀ (h : HitterStats) (s : Stadium) (r : MatchScores),
      calculate_stadium_match_score (some h) (some s) = some r →
      r.stadium_advantage = parkType (s.park_factor.getD 1)) := by
  refine ⟨?_, by norm_num [parkType], by norm_num [parkType], by norm_num [parkType], ?_⟩
  · intro pf
    refine ⟨?_, ?_, ?_⟩
    · intro h
      rw [parkType, if_pos h]
    · intro h
      rw [parkType, if_neg (not_lt.mpr (by linarith)), if_pos h]
    · intro h1 h2
      rw [parkType, if_neg (not_lt.mpr h2), if_neg (not_lt.mpr h1)]
  · intro h s r hr
    simp only [calculate_stadium_match_score, Option.some.injEq] at hr
    subst hr
    rfl

/-- Witness for C5 at concrete park factors 2, 1/2 and 1. -/
theorem claim_C5_witness :
    parkType 2 = "Hitter-friendly" ∧ parkType (1/2) = "Pitcher-friendly" ∧
      parkType 1 = "Neutral" :=
  ⟨(claim_C5.1 2).1 (by norm_num), (claim_C5.1 (1/2)).2.1 (by norm_num),
    (claim_C5.1 1).2.2 (by norm_num) (by norm_num)⟩

/-- C6.  The launch-derived xBA heuristic of the code coincides with the
spec's formula `0.1 + 0.4 * clip((ev − 70)/30, 0, 1) * clip(1 − |la − 10|/30, 0, 1)`
for every event; when no measured xBA column exists the aggregator applies it
per event; when no measured slugging column exists the per-event slugging
proxy is 1.5 times the xBA proxy; and the aggregator's park-adjusted outputs
satisfy `park_adjusted_ba = mean(xba) * (1 + (pf − 1) * 0.1)` and
`park_adjusted_slg = mean(xslg) * pf`. -/
theorem claim_C6 :
    (∀ ev la : ℚ, calculate_xba_from_ev_la ev la = spec_xba ev la) ∧
    (∀ b : BipData, b.hasXbaCol = false →
      xbaValues b = b.rows.map fun r => spec_xba r.launch_speed r.launch_angle) ∧
    (∀ b : BipData, b.hasXslgCol = false →
      xslgValues b = (xbaValues b).map fun q => q * 1.5) ∧
    (∀ (b : BipData) (s : Stadium) (r : ExpectedStats),
      calculate_expected_stats_for_stadium b s = some r →
      r.park_adjusted_ba = mean (xbaValues b) * (1 + (s.park_factor.getD 1 - 1) * 0.1) ∧
      r.park_adjusted_slg = mean (xslgValues b) * s.park_factor.getD 1) := by
  refine ⟨fun ev la => rfl, ?_, ?_, ?_⟩
  · intro b hb
    rw [xbaValues, hb]
    rfl
  · intro b hb
    rw [xslgValues, hb]
    rfl
  · intro b s r hr
    by_cases hb : b.rows.length = 0
    · rw [calculate_expected_stats_for_stadium, if_pos hb] at hr
      exact Option.noConfusion hr
    · rw [calculate_expected_stats_for_stadium, if_neg hb] at hr
      simp only [Option.some.injEq] at hr
      subst hr
      exact ⟨rfl, rfl⟩

/-- A mediocre contact event: exit velocity 70, launch angle 10, distance 0. -/
def wRow : BipRow := ⟨70, 10, some 0, 5, none, none, "field_out"⟩

/-- Singleton frame with no measured xBA/xSLG columns. -/
def wBatch : BipData := ⟨[wRow], true, true, false, false, true⟩

/-- A default-dimension stadium with no stored park factor. -/
def wStadium : Stadium := ⟨some 330, none, some 400, none, some 330, none, 0⟩

/-- The aggregation result of `wBatch` at `wStadium`. -/
def wStats : ExpectedStats := ⟨1/10, 3/20, 1/4, 0, 0, 0, 0, 1, 1, 1/10, 3/20⟩

/-- Evaluation of the aggregator on the concrete frame `wBatch`. -/
lemma wAgg : calculate_expected_stats_for_stadium wBatch wStadium = some wStats := by
  norm_num [calculate_expected_stats_for_stadium, wBatch, wStadium, wRow, wStats,
    xbaValues, xslgValues, calculate_xba_from_ev_la, clip, mean,
    calculate_expected_home_runs, rowHitDistance, rowAngle, dirAngle, wrapAngle_zero,
    fence_distance_for_angle, List.countP_cons, List.countP_nil]
  decide

/-- Witness for C6 at the concrete frame `wBatch`. -/
theorem claim_C6_witness :
    xbaValues wBatch = [spec_xba 70 10] ∧
    xslgValues wBatch = [spec_xba 70 10 * 1.5] ∧
    wStats.park_adjusted_ba =
      mean (xbaValues wBatch) * (1 + (wStadium.park_factor.getD 1 - 1) * 0.1) := by
  have h2 := claim_C6.2.1 wBatch rfl
  have h3 := claim_C6.2.2.1 wBatch rfl
  have h4 := (claim_C6.2.2.2 wBatch wStadium wStats wAgg).1
  exact ⟨by rw [h2]; rfl, by rw [h3, h2]; rfl, h4⟩

/-- C7.  For any fixed batch, two stadium records identical except for
altitude (5280 ft vs 0 ft) yield `expected_hr_count` at altitude at least the
sea-level count: `calculate_expected_home_runs` never reads the altitude
field, so the counts coincide. -/
theorem claim_C7 (b : BipData) (lf lc cf rc rf pf : Option ℚ) :
    calculate_expected_home_runs b ⟨lf, lc, cf, rc, rf, pf, 5280⟩ ≥
      calculate_expected_home_runs b ⟨lf, lc, cf, rc, rf, pf, 0⟩ :=
  le_of_eq rfl

/-- C8.  The atmosphere model computes `0.075 * exp(−altitude/30000)`, is
strictly decreasing in altitude, and is total on the reals with every
negative altitude giving density above 0.075. -/
theorem claim_C8 :
    (∀ a : ℝ, density a = 0.075 * Real.exp (-a / 30000)) ∧
    (∀ a b : ℝ, a < b → density b < density a) ∧
    (∀ a : ℝ, a < 0 → 0.075 < density a) := by
  refine ⟨fun a => rfl, ?_, ?_⟩
  · intro a b hab
    have h := Real.exp_lt_exp.mpr (show -b / 30000 < -a / 30000 by linarith)
    calc density b = 0.075 * Real.exp (-b / 30000) := rfl
    _ < 0.075 * Real.exp (-a / 30000) := mul_lt_mul_of_pos_left h (by norm_num)
    _ = density a := rfl
  · intro a ha
    have h1 : (1 : ℝ) < Real.exp (-a / 30000) := by
      rw [← Real.exp_zero]
      exact Real.exp_lt_exp.mpr (by linarith)
    calc (0.075 : ℝ) = 0.075 * 1 := by norm_num
    _ < 0.075 * Real.exp (-a / 30000) := mul_lt_mul_of_pos_left h1 (by norm_num)
    _ = density a := rfl

/-- Witness for C8: a mile of altitude thins the air, a dip below sea level
thickens it. -/
theorem claim_C8_witness : density 5280 < density 0 ∧ 0.075 < density (-100) :=
  ⟨claim_C8.2.1 0 5280 (by norm_num), claim_C8.2.2 (-100) (by norm_num)⟩

/-- C9.  The match scorer returns `None` exactly when either input is `None`,
and on any two populated inputs totally returns a record carrying all seven
keys (the seven fields of `MatchScores`). -/
theorem claim_C9 :
    (∀ (oh : Option HitterStats) (os : Option Stadium),
      calculate_stadium_match_score oh os = none ↔ oh = none ∨ os = none) ∧
    (∀ (h : HitterStats) (s : Stadium),
      ∃ r : MatchScores, calculate_stadium_match_score (some h) (some s) = some r) := by
  constructor
  · rintro (_ | h) (_ | s) <;> simp [calculate_stadium_match_score]
  · intro h s
    exact ⟨_, rfl⟩

/-- C10.  Every populated aggregation result satisfies
`expected_ops = expected_ba + expected_slg`, and when no measured slugging
column is present also `expected_slg = 1.5 * expected_ba`. -/
theorem claim_C10 (b : BipData) (s : Stadium) (r : ExpectedStats)
    (hr : calculate_expected_stats_for_stadium b s = some r) :
    r.expected_ops = r.expected_ba + r.expected_slg ∧
    (b.hasXslgCol = false → r.expected_slg = 1.5 * r.expected_ba) := by
  by_cases hb : b.rows.length = 0
  · rw [calculate_expected_stats_for_stadium, if_pos hb] at hr
    exact Option.noConfusion hr
  · rw [calculate_expected_stats_for_stadium, if_neg hb] at hr
    simp only [Option.some.injEq] at hr
    subst hr
    refine ⟨rfl, ?_⟩
    intro hslg
    show mean (xslgValues b) = 1.5 * mean (xbaValues b)
    rw [xslgValues, hslg]
    simp only [Bool.false_eq_true, if_false]
    rw [mean_map_mul]
    ring

/-- A barrelled ball recorded as a home run. -/
def w2Row : BipRow := ⟨100, 20, some 450, 0, none, none, "home_run"⟩

/-- Singleton frame with no measured slugging column. -/
def w2Batch : BipData := ⟨[w2Row], true, false, false, false, true⟩

/-- A short-fenced stadium with park factor 1.08. -/
def w2Stadium : Stadium := ⟨some 310, none, some 390, none, some 302, some (27/25), 0⟩

/-- The aggregation result of `w2Batch` at `w2Stadium`. -/
def w2Stats : ExpectedStats :=
  ⟨11/30, 11/20, 11/12, 0, 0, 1, 1, 1, 27/25, 231/625, 297/500⟩

/-- Evaluation of the aggregator on the concrete frame `w2Batch`. -/
lemma w2Agg : calculate_expected_stats_for_stadium w2Batch w2Stadium = some w2Stats := by
  norm_num [calculate_expected_stats_for_stadium, w2Batch, w2Stadium, w2Row, w2Stats,
    xbaValues, xslgValues, calculate_xba_from_ev_la, clip, mean,
    calculate_expected_home_runs, rowHitDistance, rowAngle, dirAngle, wrapAngle_zero,
    fence_distance_for_angle, List.countP_cons, List.countP_nil]

/-- Witness for C10 at the concrete frame `w2Batch`. -/
theorem claim_C10_witness :
    ∃ r : ExpectedStats,
      calculate_expected_stats_for_stadium w2Batch w2Stadium = some r ∧
      r.expected_ops = r.expected_ba + r.expected_slg ∧
      r.expected_slg = 1.5 * r.expected_ba := by
  refine ⟨w2Stats, w2Agg, ?_, ?_⟩
  · exact (claim_C10 w2Batch w2Stadium w2Stats w2Agg).1
  · exact (claim_C10 w2Batch w2Stadium w2Stats w2Agg).2 rfl

end MLBProj
